import Mathlib

/-!
Verification development for the radalert library: a shallow embedding of
the packet codecs (BLE status/query, HID status/query), the BLE session
engine (decode / synchronize / process / receive loop) and the FIR filter
helper, together with theorems settling the specification claims.

Bytes are modelled as `Fin 256`; multi-byte fields are read little-endian,
mirroring the `struct.unpack` format strings of the source.  Fallible
decoding returns `Except`; the Python exceptions of the source map to the
error taxonomy below.  Loops are embedded as fuel-indexed structural
recursion with a fuel bound that dominates the loop variant, so every
definition is executable.
-/

/-- Error taxonomy of the library: structural parse failure, validator
range failure, packet-id continuity failure, and accessors that a given
transport does not carry. -/
inductive RAError where
  | malformed
  | outOfRange
  | seqJump
  | notAvailable
  deriving DecidableEq, Repr

/-- Alarm states of a status record (from `generic.RadAlertStatus.AlarmState`). -/
inductive AlarmState where
  | DISABLED
  | SET
  | ALERTING
  | SILENCED
  deriving DecidableEq, Repr

/-- One byte of a packet buffer. -/
abbrev Byte := Fin 256

/-- Decidable equality of `Except` results, so that concrete decoding
outcomes can be settled by `decide`. -/
instance {e a : Type} [DecidableEq e] [DecidableEq a] : DecidableEq (Except e a) :=
  fun x y =>
    match x, y with
    | .ok v, .ok w =>
      decidable_of_iff (v = w) ⟨fun h => by rw [h], fun h => Except.ok.inj h⟩
    | .ok _, .error _ => isFalse (fun h => Except.noConfusion h)
    | .error _, .ok _ => isFalse (fun h => Except.noConfusion h)
    | .error v, .error w =>
      decidable_of_iff (v = w) ⟨fun h => by rw [h], fun h => Except.error.inj h⟩

/-- Little-endian value of a byte list (least significant byte first). -/
def leVal (l : List Byte) : Nat :=
  l.foldr (fun b acc => b.val + 256 * acc) 0

/-- Little-endian field of `len` bytes starting at `off`, as used by the
`struct.unpack` format strings of the source. -/
def leField (bs : List Byte) (off len : Nat) : Nat :=
  leVal ((bs.drop off).take len)

/-- Unpacked fields of a BLE status packet
(`RadAlertLEStatus.unpack`, dictionary keys of the source). -/
structure RadAlertLEStatusData where
  cps : Nat
  value : Nat
  mode : Nat
  cpm : Nat
  unk1 : Nat
  id : Nat
  power : Nat
  alarm_alerting : Bool
  alarm_set : Bool
  alarm_silenced : Bool
  unknown : Nat
  deriving DecidableEq, Repr

/-- Field extraction of `RadAlertLEStatus.unpack`: format `<2IHHB3B`,
cpm merged from its two sub-fields, status byte split into bit fields. -/
def RadAlertLEStatus.fields (bs : List Byte) : RadAlertLEStatusData :=
  let status := leField bs 14 1
  { cps := leField bs 0 4
    value := leField bs 4 4
    mode := leField bs 8 2
    cpm := leField bs 10 2 + (leField bs 12 1 <<< 16)
    unk1 := leField bs 13 1
    id := leField bs 15 1
    power := (status >>> 0) &&& 7
    alarm_alerting := ((status >>> 3) &&& 1) == 1
    alarm_set := ((status >>> 4) &&& 1) == 1
    alarm_silenced := ((status >>> 5) &&& 1) == 1
    unknown := (status >>> 6) &&& 3 }

/-- Model of `RadAlertLEStatus._validate`: the checks are performed in source
order; the `< 0` halves of the range checks are vacuous on the unsigned
struct fields and have no counterpart on `Nat`. -/
def RadAlertLEStatus.validate (d : RadAlertLEStatusData) : Except RAError Unit :=
  if 7500 * 100 < d.cps then .error .outOfRange
  else if 7500 * 60 < d.cpm then .error .outOfRange
  else if 5 < d.power then .error .outOfRange
  else if d.alarm_alerting && !d.alarm_set then .error .outOfRange
  else if d.alarm_silenced && !d.alarm_alerting then .error .outOfRange
  else if d.mode ∈ ([0, 1, 2, 3, 20, 23] : List Nat) then .ok ()
  else .error .outOfRange

/-- Model of `RadAlertLEStatus.unpack`: `struct.unpack` demands exactly 16 bytes
(otherwise `struct.error`, i.e. a malformed frame), then the unpacked
dictionary is validated. -/
def RadAlertLEStatus.unpack (bs : List Byte) : Except RAError RadAlertLEStatusData :=
  if bs.length = 16 then
    let d := RadAlertLEStatus.fields bs
    match RadAlertLEStatus.validate d with
    | .ok _ => .ok d
    | .error e => .error e
  else .error .malformed

/-- Model of `RadAlertLEStatus.alarm_state`: the chain of conditions is kept in
priority order as in the source. -/
def RadAlertLEStatus.alarm_state (d : RadAlertLEStatusData) : AlarmState :=
  if d.alarm_silenced then .SILENCED
  else if d.alarm_alerting then .ALERTING
  else if d.alarm_set then .SET
  else .DISABLED

/-- Unpacked fields of a BLE query packet (`RadAlertLEQuery.unpack`). -/
structure RadAlertLEQueryData where
  unk1 : Nat
  alarm : Nat
  unk2 : Nat
  dead : Nat
  conv : Nat
  unk4 : Nat
  deriving DecidableEq, Repr

/-- Field extraction of `RadAlertLEQuery.unpack`: format `<I4HI`. -/
def RadAlertLEQuery.fields (bs : List Byte) : RadAlertLEQueryData :=
  { unk1 := leField bs 0 4
    alarm := leField bs 4 2
    unk2 := leField bs 6 2
    dead := leField bs 8 2
    conv := leField bs 10 2
    unk4 := leField bs 12 4 }

/-- Model of `RadAlertLEQuery._validate`, in source order. -/
def RadAlertLEQuery.validate (d : RadAlertLEQueryData) : Except RAError Unit :=
  if 235400 < d.alarm then .error .outOfRange
  else if d.dead = 0 then .error .outOfRange
  else if d.conv < 200 ∨ 7000 < d.conv then .error .outOfRange
  else .ok ()

/-- Model of `RadAlertLEQuery.unpack`: exactly 16 bytes, then validation. -/
def RadAlertLEQuery.unpack (bs : List Byte) : Except RAError RadAlertLEQueryData :=
  if bs.length = 16 then
    let d := RadAlertLEQuery.fields bs
    match RadAlertLEQuery.validate d with
    | .ok _ => .ok d
    | .error e => .error e
  else .error .malformed

/-- Model of `RadAlertLEQuery.alarm_level` accessor. -/
def RadAlertLEQuery.alarm_level (d : RadAlertLEQueryData) : Nat := d.alarm

/-- Model of `RadAlertLEQuery.conversion_factor` accessor. -/
def RadAlertLEQuery.conversion_factor (d : RadAlertLEQueryData) : Nat := d.conv

/-- Model of `RadAlertLEQuery.deadtime` accessor: `1 / dead`.  Python division
raises `ZeroDivisionError` on a zero divisor, so the accessor is embedded
with an explicit zero branch returning `none`. -/
def RadAlertLEQuery.deadtime (d : RadAlertLEQueryData) : Option ℚ :=
  if d.dead = 0 then none else some (1 / (d.dead : ℚ))

/-- Unpacked fields of a HID status packet (`RadAlertHIDStatus.unpack`). -/
structure RadAlertHIDStatusData where
  cps : Nat
  id : Nat
  value : Nat
  mode : Nat
  unknown1 : Nat
  unknown2 : Nat
  deriving DecidableEq, Repr

/-- Field extraction of `RadAlertHIDStatus.unpack`: format `<IBIBBI`
over 15 bytes. -/
def RadAlertHIDStatus.fields (bs : List Byte) : RadAlertHIDStatusData :=
  { cps := leField bs 0 4
    id := leField bs 4 1
    value := leField bs 5 4
    mode := leField bs 9 1
    unknown1 := leField bs 10 1
    unknown2 := leField bs 11 4 }

/-- Model of `RadAlertHIDStatus._validate`, in source order. -/
def RadAlertHIDStatus.validate (d : RadAlertHIDStatusData) : Except RAError Unit :=
  if 7500 * 100 < d.cps then .error .outOfRange
  else if d.mode ∈ ([0, 1, 2, 3, 20, 23] : List Nat) then .ok ()
  else .error .outOfRange

/-- Model of `RadAlertHIDStatus.unpack`: exactly 15 bytes, then validation. -/
def RadAlertHIDStatus.unpack (bs : List Byte) : Except RAError RadAlertHIDStatusData :=
  if bs.length = 15 then
    let d := RadAlertHIDStatus.fields bs
    match RadAlertHIDStatus.validate d with
    | .ok _ => .ok d
    | .error e => .error e
  else .error .malformed

/-- Model of `RadAlertHIDStatus.cpm` accessor: the HID status packet carries no
cpm, the source raises `NotImplementedError` unconditionally. -/
def RadAlertHIDStatus.cpm (_ : RadAlertHIDStatusData) : Except RAError Nat :=
  .error .notAvailable

/-- Model of `RadAlertHIDStatus.alarm_state` accessor: raises
`NotImplementedError` unconditionally. -/
def RadAlertHIDStatus.alarm_state (_ : RadAlertHIDStatusData) : Except RAError AlarmState :=
  .error .notAvailable

/-- Model of `RadAlertHIDStatus.is_charging` accessor: constant `True`. -/
def RadAlertHIDStatus.is_charging (_ : RadAlertHIDStatusData) : Bool := true

/-- Model of `RadAlertHIDStatus.battery_percent` accessor: constant `None`. -/
def RadAlertHIDStatus.battery_percent (_ : RadAlertHIDStatusData) : Option ℚ := none

/-- Leap-year rule of the proleptic Gregorian calendar used by Python's
`datetime`. -/
def isLeapYear (y : Nat) : Bool :=
  (y % 4 == 0 && y % 100 != 0) || y % 400 == 0

/-- Number of days of month `m` in year `y` (Gregorian). -/
def daysInMonth (y m : Nat) : Nat :=
  if m = 2 then (if isLeapYear y then 29 else 28)
  else if m ∈ ([4, 6, 9, 11] : List Nat) then 30
  else 31

/-- Whether `datetime.datetime(y, m, d)` constructs without raising.
The year bound `1 ≤ y ≤ 9999` always holds at the call site of the
source (`year + 2000` with `year` an unsigned byte), so only the month
and day bounds are modelled. -/
def validDate (y m d : Nat) : Bool :=
  decide (1 ≤ m ∧ m ≤ 12 ∧ 1 ≤ d ∧ d ≤ daysInMonth y m)

/-- Unpacked fields of a HID query packet used by its validator and
accessors (`RadAlertHIDQuery.unpack` dictionary; the unknown/serial
fields, which the validator ignores, are omitted). -/
structure RadAlertHIDQueryData where
  alarm : Nat
  day : Nat
  month : Nat
  year : Nat
  contrast : Nat
  dead : Nat
  count_duration : Nat
  backlight_duration : Nat
  conv : Nat
  datalog_interval : Nat
  auto_averaging : Bool
  datalog_circular : Bool
  alarm_set : Bool
  audible_clicks : Bool
  audible_beeps : Bool
  datalog_enabled : Bool
  deriving DecidableEq, Repr

/-- Model of `RadAlertHIDQuery._validate`, in source order (the serial-number
check is commented out in the source). -/
def RadAlertHIDQuery.validate (d : RadAlertHIDQueryData) : Except RAError Unit :=
  if 235400 < d.alarm then .error .outOfRange
  else if validDate (d.year + 2000) d.month d.day = false then .error .outOfRange
  else if 64 < d.contrast then .error .outOfRange
  else if d.dead = 0 then .error .outOfRange
  else if 24 * 60 * 60 ≤ d.count_duration ∨ d.count_duration < 1 then .error .outOfRange
  else if 30 < d.backlight_duration then .error .outOfRange
  else if d.conv < 200 ∨ 7000 < d.conv then .error .outOfRange
  else if 60 < d.datalog_interval ∨ d.datalog_interval < 1 then .error .outOfRange
  else .ok ()

/-- Model of `RadAlertHIDQuery.deadtime` accessor: `1 / dead`, with the Python
`ZeroDivisionError` embedded as an explicit `none` branch. -/
def RadAlertHIDQuery.deadtime (d : RadAlertHIDQueryData) : Option ℚ :=
  if d.dead = 0 then none else some (1 / (d.dead : ℚ))

/-- A decoded BLE packet, as handed to the packet callback. -/
inductive RAPacket where
  | status (d : RadAlertLEStatusData)
  | query (q : RadAlertLEQueryData)
  deriving DecidableEq, Repr

/-- Mutable state of a `RadAlertLE` session, extended with the
observable event history: `emitted` records the packet-callback
invocations, `sent` the strings written to the transport. -/
structure EngineState where
  receive_buffer : List Byte
  command_buffer : List String
  last_id : Option Nat
  sync_count : Nat
  emitted : List RAPacket
  sent : List String
  deriving DecidableEq, Repr

/-- The four-byte query sentinel `FF FF FF FF`. -/
def querySentinel : List Byte := [255, 255, 255, 255]

/-- Model of `RadAlertLE._decode`: returns `none` on a short buffer, otherwise
decodes the leading 16 bytes, discriminating on the sentinel.  A status
packet is checked for id continuity against `last_id`; the id-jump
failure clears `last_id` before raising, a success stores the new id.
The buffer itself is never consumed here.  Returns the result together
with the updated `last_id`. -/
def bleDecode (buf : List Byte) (lastId : Option Nat) :
    Except RAError (Option RAPacket) × Option Nat :=
  if buf.length < 16 then (.ok none, lastId)
  else
    let packet := buf.take 16
    if packet.take 4 = querySentinel then
      match RadAlertLEQuery.unpack packet with
      | .error e => (.error e, lastId)
      | .ok q => (.ok (some (.query q)), lastId)
    else
      match RadAlertLEStatus.unpack packet with
      | .error e => (.error e, lastId)
      | .ok d =>
        match lastId with
        | some lid =>
          if (lid + 1) % 256 ≠ d.id then (.error .seqJump, none)
          else (.ok (some (.status d)), some d.id)
        | none => (.ok (some (.status d)), some d.id)

/-- Outcome of one iteration of a session loop: either the loop stops
with a final state or continues with the next state. -/
inductive LoopStep where
  | stop (s : EngineState)
  | next (s : EngineState)
  deriving DecidableEq, Repr

/-- One iteration of `RadAlertLE._synchronize`: while not synchronized,
try to decode; a `None` decode breaks the loop; a successful decode
bumps `sync_count` and enqueues an ack without consuming any bytes; an
exception drops one byte and resets `sync_count` and `last_id`. -/
def RadAlertLE.syncBody (s : EngineState) : LoopStep :=
  if 5 ≤ s.sync_count then .stop s
  else if s.receive_buffer.length < 16 then .stop s
  else
    match bleDecode s.receive_buffer s.last_id with
    | (.ok none, _) => .stop s
    | (.ok (some _), lid) =>
        .next { s with last_id := lid, sync_count := s.sync_count + 1,
                       command_buffer := s.command_buffer ++ ["X"] }
    | (.error _, _) =>
        .next { s with receive_buffer := s.receive_buffer.drop 1,
                       sync_count := 0, last_id := none }

/-- Fuel-indexed unfolding of the `_synchronize` while-loop. -/
def synchronizeFuel : Nat → EngineState → EngineState
  | 0, s => s
  | f + 1, s =>
    match RadAlertLE.syncBody s with
    | .stop t => t
    | .next t => synchronizeFuel f t

/-- Model of `RadAlertLE._synchronize`.  Each iteration either consumes a byte
(resetting `sync_count` below 6) or raises `sync_count` towards 5, so
`6 * length + 6` fuel dominates the loop variant. -/
def RadAlertLE.synchronize (s : EngineState) : EngineState :=
  synchronizeFuel (6 * s.receive_buffer.length + 6) s

/-- Fuel-indexed unfolding of the `RadAlertLE._process` while-loop.  The
loop body decodes, slices 16 bytes off the buffer when no exception was
raised, enqueues an ack, and on a decoded packet invokes the callback
(which may enqueue further commands, modelled by `cb`) before looping;
on `None` or an exception (which also desynchronizes) it breaks after
the ack. -/
def processLoopFuel (cb : RAPacket → List String) : Nat → EngineState → EngineState
  | 0, s => s
  | f + 1, s =>
    if 5 ≤ s.sync_count then
      if s.receive_buffer.length < 16 then
        { s with receive_buffer := s.receive_buffer.drop 16,
                 command_buffer := s.command_buffer ++ ["X"] }
      else
        match bleDecode s.receive_buffer s.last_id with
        | (.ok none, lid) =>
            { s with last_id := lid, receive_buffer := s.receive_buffer.drop 16,
                     command_buffer := s.command_buffer ++ ["X"] }
        | (.ok (some p), lid) =>
            processLoopFuel cb f
              { s with last_id := lid, receive_buffer := s.receive_buffer.drop 16,
                       command_buffer := (s.command_buffer ++ ["X"]) ++ cb p,
                       emitted := s.emitted ++ [p] }
        | (.error _, lid) =>
            { s with last_id := lid, sync_count := 0,
                     command_buffer := s.command_buffer ++ ["X"] }
    else s

/-- Model of `RadAlertLE._process`: synchronize, then drain the buffer while
synchronized.  Each continuing iteration consumes 16 bytes, so
`length + 1` fuel dominates the loop. -/
def RadAlertLE.process (cb : RAPacket → List String) (s : EngineState) : EngineState :=
  let t := RadAlertLE.synchronize s
  processLoopFuel cb (t.receive_buffer.length + 1) t

/-- Model of `RadAlertLE._on_receive`: append the chunk, process, then send every
queued command in FIFO order, each terminated by a newline
(`_send_command` with `_COMMAND_ENDL`). -/
def RadAlertLE.on_receive (cb : RAPacket → List String) (s : EngineState)
    (chunk : List Byte) : EngineState :=
  let t := RadAlertLE.process cb { s with receive_buffer := s.receive_buffer ++ chunk }
  { t with command_buffer := [],
           sent := t.sent ++ t.command_buffer.map (fun c => c ++ "\n") }

/-- Deliver a sequence of received chunks to a session. -/
def RadAlertLE.runChunks (cb : RAPacket → List String) (s : EngineState)
    (chunks : List (List Byte)) : EngineState :=
  chunks.foldl (RadAlertLE.on_receive cb) s

/-- A fresh session state (`RadAlertLE._reset`). -/
def initialEngineState : EngineState :=
  { receive_buffer := [], command_buffer := [], last_id := none,
    sync_count := 0, emitted := [], sent := [] }

/-- Model of `FIRFilter` of the filter helper module: a fixed capacity, the
stored window, and the reducer applied by the `value` property. -/
structure FIRFilter (α β : Type 0) where
  size : Nat
  values : List α
  function : List α → β

/-- Model of `FIRFilter.iterate`: append the new value, evict the oldest when the
window exceeds the capacity. -/
def FIRFilter.iterate (F : FIRFilter α β) (x : α) : FIRFilter α β :=
  let v := F.values ++ [x]
  { F with values := if F.size < v.length then v.drop 1 else v }

/-- The `value` property: the reducer applied to the stored window. -/
def FIRFilter.value (F : FIRFilter α β) : β := F.function F.values

/-- A freshly constructed filter (`FIRFilter.__init__`). -/
def FIRFilter.init (size : Nat) (function : List α → β) : FIRFilter α β :=
  { size := size, values := [], function := function }

/-- Push a whole stream through the filter, oldest first. -/
def FIRFilter.pushAll (F : FIRFilter α β) (xs : List α) : FIRFilter α β :=
  xs.foldl FIRFilter.iterate F

/-- Model of `mean_arithmetic` of the filter helper module: `None` on an empty
list, otherwise the arithmetic mean. -/
def mean_arithmetic (values : List ℚ) : Option ℚ :=
  if values.length = 0 then none else some (values.sum / values.length)

/-- State carried by a loop step, whether stopping or continuing. -/
def LoopStep.state : LoopStep → EngineState
  | .stop s => s
  | .next s => s

/-- Spec-side rejection predicate for claim C4, written from the
specification's validation clause: cps above 750000, cpm above 450000,
power above 5, an unknown mode, the alerting bit without the set bit, or
the silenced bit without the alerting bit. -/
def specStatusRejects (d : RadAlertLEStatusData) : Bool :=
  decide (750000 < d.cps) || decide (450000 < d.cpm) || decide (5 < d.power) ||
  decide (d.mode ∉ ([0, 1, 2, 3, 20, 23] : List Nat)) ||
  (d.alarm_alerting && !d.alarm_set) || (d.alarm_silenced && !d.alarm_alerting)

/-- Spec-side alarm-state derivation for claim C5, written from the
specification: the highest-priority set bit among silenced, alerting,
set, or DISABLED when none is set. -/
def specAlarmPriority (silenced alerting armed : Bool) : AlarmState :=
  if silenced then .SILENCED
  else if alerting then .ALERTING
  else if armed then .SET
  else .DISABLED

/-- Status bytes of scenario S1: `0A 00 00 00 00 00 00 00 00 00 30 00 00 00 10 42`. -/
def c2bytes : List Byte :=
  [0x0A, 0, 0, 0, 0, 0, 0, 0, 0, 0, 0x30, 0, 0, 0, 0x10, 0x42]

/-- Status bytes like S1 but with status byte `0x08`: the alerting bit
set without the set bit. -/
def c5bytes : List Byte :=
  [0x0A, 0, 0, 0, 0, 0, 0, 0, 0, 0, 0x30, 0, 0, 0, 0x08, 0x42]

/-- Query bytes of scenario S2:
`FF FF FF FF 2E 04 00 00 67 2B 2E 04 00 00 FF FF`. -/
def c6bytes : List Byte :=
  [0xFF, 0xFF, 0xFF, 0xFF, 0x2E, 0x04, 0, 0, 0x67, 0x2B, 0x2E, 0x04,
   0, 0, 0xFF, 0xFF]

/-- A concrete HID query record that passes validation. -/
def hidQueryRec : RadAlertHIDQueryData :=
  { alarm := 1070, day := 1, month := 1, year := 21, contrast := 25,
    dead := 11111, count_duration := 600, backlight_duration := 7,
    conv := 1070, datalog_interval := 1, auto_averaging := false,
    datalog_circular := false, alarm_set := false, audible_clicks := true,
    audible_beeps := true, datalog_enabled := false }

/-- A concrete 15-byte HID status packet. -/
def hid15bytes : List Byte :=
  [0x0A, 0, 0, 0, 0x42, 0, 0, 0, 0, 0, 0, 0, 0, 0, 0]

/-- A callback that enqueues nothing. -/
def cbNone : RAPacket → List String := fun _ => []

/-- A callback that calls `trigger_query` (enqueueing `?`) when handed a
query record. -/
def cbQueryOnQuery : RAPacket → List String :=
  fun p => match p with
  | .query _ => ["?"]
  | .status _ => []

/-- A session state that has reached ACTIVE with empty buffers. -/
def activeEngineState : EngineState :=
  { receive_buffer := [], command_buffer := [], last_id := none,
    sync_count := 5, emitted := [], sent := [] }

/-- A 16-byte status packet with cps `0x0B0000`, all other fields zero
except the trailing id byte. -/
def statusBytes (i : Byte) : List Byte :=
  [0, 0, 0x0B, 0, 0, 0, 0, 0, 0, 0, 0, 0, 0, 0, 0, i]

/-- A fresh SYNCING session whose buffer holds one aligned valid status
packet. -/
def syncWitnessState : EngineState :=
  { receive_buffer := statusBytes 1, command_buffer := [], last_id := none,
    sync_count := 0, emitted := [], sent := [] }

/-- The receive chunks of scenario S4: a stray `AA` byte, then five
valid consecutive status packets. -/
def c1chunks : List (List Byte) :=
  [[0xAA], statusBytes 1, statusBytes 2, statusBytes 3, statusBytes 4,
   statusBytes 5]

lemma fir_iterate_eq {α β : Type} (N : Nat) (f : List α → β) (v : List α) (x : α)
    (h : v.length ≤ N) :
    FIRFilter.iterate ⟨N, v, f⟩ x =
      ⟨N, (v ++ [x]).drop (v.length + 1 - N), f⟩ := by
  simp only [FIRFilter.iterate, List.length_append, List.length_cons]
  split
  · rename_i hlt
    congr 1
    simp at hlt
    congr 1
    omega
  · rename_i hlt
    simp at hlt
    rw [show v.length + 1 - N = 0 by omega, List.drop_zero]

lemma fir_window {α β : Type} (N : Nat) (f : List α → β) :
    ∀ (xs v : List α), v.length ≤ N →
      (FIRFilter.pushAll ⟨N, v, f⟩ xs).values =
        (v ++ xs).drop ((v ++ xs).length - N) := by
  intro xs
  induction xs with
  | nil =>
    intro v h
    simp only [FIRFilter.pushAll, List.foldl_nil, List.append_nil]
    rw [show v.length - N = 0 by omega, List.drop_zero]
  | cons x xs ih =>
    intro v h
    have hstep : FIRFilter.pushAll (⟨N, v, f⟩ : FIRFilter α β) (x :: xs) =
        FIRFilter.pushAll ⟨N, (v ++ [x]).drop (v.length + 1 - N), f⟩ xs := by
      simp only [FIRFilter.pushAll, List.foldl_cons]
      rw [fir_iterate_eq N f v x h]
    have hlen1 : (v.length + 1 - N) ≤ (v ++ [x]).length := by
      simp only [List.length_append, List.length_singleton]
      omega
    have hlen2 : ((v ++ [x]).drop (v.length + 1 - N)).length ≤ N := by
      simp only [List.length_drop, List.length_append, List.length_singleton]
      omega
    rw [hstep, ih _ hlen2]
    rw [← List.drop_append_of_le_length hlen1]
    rw [List.drop_drop]
    rw [show v ++ x :: xs = (v ++ [x]) ++ xs by simp]
    congr 1
    simp [List.length_append, List.length_drop]
    omega

lemma fir_pushAll_function {α β : Type} (xs : List α) :
    ∀ F : FIRFilter α β, (F.pushAll xs).function = F.function := by
  induction xs with
  | nil => intro F; rfl
  | cons x xs ih =>
    intro F
    simp only [FIRFilter.pushAll, List.foldl_cons]
    exact ih (F.iterate x)

/-- C8: an FIR filter of capacity `N` with reducer `f`, after pushing a
stream `xs`, stores exactly the last `min N xs.length` pushed values in
arrival order, its `value` property is `f` of that window, and the value
of a freshly created window under the default arithmetic-mean reducer is
`None`. -/
theorem claim_C8_fir_window {α β : Type} (N : Nat) (f : List α → β) (xs : List α) :
    (FIRFilter.pushAll (FIRFilter.init N f) xs).values =
      xs.drop (xs.length - N) ∧
    (FIRFilter.pushAll (FIRFilter.init N f) xs).value =
      f (xs.drop (xs.length - N)) ∧
    (FIRFilter.init N mean_arithmetic).value = none := by
  have hw : (FIRFilter.pushAll (FIRFilter.init N f) xs).values =
      xs.drop (xs.length - N) := by
    have h0 := fir_window N f xs [] (by simp)
    simpa [FIRFilter.init] using h0
  refine ⟨hw, ?_, rfl⟩
  show (FIRFilter.pushAll (FIRFilter.init N f) xs).function
      (FIRFilter.pushAll (FIRFilter.init N f) xs).values = _
  rw [fir_pushAll_function, hw]
  rfl

lemma validate_iff_specRejects (d : RadAlertLEStatusData) :
    (RadAlertLEStatus.validate d = .error .outOfRange ↔ specStatusRejects d = true) ∧
    (specStatusRejects d = false → RadAlertLEStatus.validate d = .ok ()) := by
  unfold RadAlertLEStatus.validate specStatusRejects
  split_ifs with h1 h2 h3 h4 h5 h6 <;> simp_all

/-- C4: for a 16-byte buffer, BLE status unpacking fails with an
out-of-range error exactly when one of the spec's six rejection
conditions holds of the decoded fields, and a buffer violating none of
them unpacks to the status record of its fields. -/
theorem claim_C4_status_validation (bs : List Byte) (h : bs.length = 16) :
    (RadAlertLEStatus.unpack bs = .error .outOfRange ↔
      specStatusRejects (RadAlertLEStatus.fields bs) = true) ∧
    (specStatusRejects (RadAlertLEStatus.fields bs) = false →
      RadAlertLEStatus.unpack bs = .ok (RadAlertLEStatus.fields bs)) := by
  have hv := validate_iff_specRejects (RadAlertLEStatus.fields bs)
  unfold RadAlertLEStatus.unpack
  rw [if_pos h]
  cases hval : RadAlertLEStatus.validate (RadAlertLEStatus.fields bs) with
  | ok u =>
    rw [hval] at hv
    simp only [hval]
    exact ⟨⟨fun hc => by simp at hc, fun hspec => absurd (hv.1.mpr hspec) (by simp)⟩,
           fun _ => trivial⟩
  | error e =>
    rw [hval] at hv
    simp only [hval, Except.error.injEq] at hv ⊢
    exact ⟨hv.1, fun hc => absurd (hv.2 hc) (by simp)⟩

/-- Witness for C4 at the S1 status packet, which violates none of the
rejection conditions. -/
theorem claim_C4_witness :
    c2bytes.length = 16 ∧
    ((RadAlertLEStatus.unpack c2bytes = .error .outOfRange ↔
        specStatusRejects (RadAlertLEStatus.fields c2bytes) = true) ∧
      (specStatusRejects (RadAlertLEStatus.fields c2bytes) = false →
        RadAlertLEStatus.unpack c2bytes = .ok (RadAlertLEStatus.fields c2bytes))) :=
  ⟨by decide, claim_C4_status_validation c2bytes (by decide)⟩

/-- C5: every successfully unpacked BLE status packet derives its
`alarm_state` by the spec's priority rule over the three alarm bits, and
a 16-byte buffer whose bits have alerting without set or silenced
without alerting is rejected with an out-of-range error. -/
theorem claim_C5_alarm_priority (bs : List Byte) (h : bs.length = 16) :
    (∀ d, RadAlertLEStatus.unpack bs = .ok d →
      RadAlertLEStatus.alarm_state d =
        specAlarmPriority d.alarm_silenced d.alarm_alerting d.alarm_set) ∧
    ((((RadAlertLEStatus.fields bs).alarm_alerting = true ∧
        (RadAlertLEStatus.fields bs).alarm_set = false) ∨
      ((RadAlertLEStatus.fields bs).alarm_silenced = true ∧
        (RadAlertLEStatus.fields bs).alarm_alerting = false)) →
      RadAlertLEStatus.unpack bs = .error .outOfRange) := by
  constructor
  · intro d _
    rfl
  · intro hbits
    unfold RadAlertLEStatus.unpack
    rw [if_pos h]
    have hval : RadAlertLEStatus.validate (RadAlertLEStatus.fields bs) =
        .error .outOfRange := by
      unfold RadAlertLEStatus.validate
      split_ifs with h1 h2 h3 h4 h5 h6
      any_goals rfl
      exfalso
      rcases hbits with ⟨ha, hs⟩ | ⟨hsil, hna⟩
      · exact h4 (by rw [ha, hs]; rfl)
      · exact h5 (by rw [hsil, hna]; rfl)
    simp only [hval]

/-- Witness for C5 at a packet whose alerting bit is set without the set
bit: unpacking rejects it. -/
theorem claim_C5_witness :
    c5bytes.length = 16 ∧
    ((∀ d, RadAlertLEStatus.unpack c5bytes = .ok d →
        RadAlertLEStatus.alarm_state d =
          specAlarmPriority d.alarm_silenced d.alarm_alerting d.alarm_set) ∧
      ((((RadAlertLEStatus.fields c5bytes).alarm_alerting = true ∧
          (RadAlertLEStatus.fields c5bytes).alarm_set = false) ∨
        ((RadAlertLEStatus.fields c5bytes).alarm_silenced = true ∧
          (RadAlertLEStatus.fields c5bytes).alarm_alerting = false)) →
        RadAlertLEStatus.unpack c5bytes = .error .outOfRange)) :=
  ⟨by decide, claim_C5_alarm_priority c5bytes (by decide)⟩

/-- Counterexample to C2 as stated: the S1 bytes carry status byte
`0x10`, whose set bit is on, so the decoded alarm state is SET, not
DISABLED. -/
theorem claim_C2_counterexample :
    (RadAlertLEStatus.unpack c2bytes).map RadAlertLEStatus.alarm_state =
      .ok AlarmState.SET ∧ AlarmState.SET ≠ AlarmState.DISABLED := by
  decide

/-- C2 as amended: the S1 bytes select the status branch (no query
sentinel), unpack successfully to cps 10, value 0, mode 0, cpm 48,
power 0, id 66, and the alarm state is SET. -/
theorem claim_C2_amended :
    c2bytes.take 4 ≠ querySentinel ∧
    bleDecode c2bytes none =
      (.ok (some (.status (RadAlertLEStatus.fields c2bytes))), some 66) ∧
    RadAlertLEStatus.unpack c2bytes = .ok
      { cps := 10, value := 0, mode := 0, cpm := 48, unk1 := 0, id := 66,
        power := 0, alarm_alerting := false, alarm_set := true,
        alarm_silenced := false, unknown := 0 } ∧
    RadAlertLEStatus.alarm_state (RadAlertLEStatus.fields c2bytes) =
      AlarmState.SET := by
  decide

/-- Counterexample to C6 as stated: the four trailer bytes of the S2
packet are `00 00 FF FF`, i.e. 0xFFFF0000, not 0xFFFFFFFF (the
conversion field occupies two bytes, not four). -/
theorem claim_C6_counterexample :
    (RadAlertLEQuery.unpack c6bytes).map (fun q => q.unk4) =
      .ok 4294901760 ∧ (4294901760 : Nat) ≠ 0xFFFFFFFF := by
  decide

/-- C6 as amended: the S2 bytes decode successfully with alarm level
1070, deadtime 1/11111 and conversion factor 1070; the two-byte
conversion field is followed by the four-byte trailer 0xFFFF0000, which
the decoder does not validate. -/
theorem claim_C6_amended :
    RadAlertLEQuery.unpack c6bytes = .ok
      { unk1 := 4294967295, alarm := 1070, unk2 := 0, dead := 11111,
        conv := 1070, unk4 := 4294901760 } ∧
    RadAlertLEQuery.alarm_level (RadAlertLEQuery.fields c6bytes) = 1070 ∧
    RadAlertLEQuery.deadtime (RadAlertLEQuery.fields c6bytes) =
      some (1 / 11111 : ℚ) ∧
    RadAlertLEQuery.conversion_factor (RadAlertLEQuery.fields c6bytes) = 1070 := by
  refine ⟨by decide, by decide, ?_, by decide⟩
  have hd : (RadAlertLEQuery.fields c6bytes).dead = 11111 := by decide
  simp only [RadAlertLEQuery.deadtime, hd]
  norm_num

/-- C7: on both the BLE and the HID query record types, a record that
passes validation has a nonzero deadtime reciprocal, so the `deadtime`
accessor's division-by-zero branch is unreachable and it returns 1
divided by the raw reciprocal. -/
theorem claim_C7_deadtime_safe :
    (∀ q : RadAlertLEQueryData, RadAlertLEQuery.validate q = .ok () →
      q.dead ≠ 0 ∧ RadAlertLEQuery.deadtime q = some (1 / (q.dead : ℚ))) ∧
    (∀ d : RadAlertHIDQueryData, RadAlertHIDQuery.validate d = .ok () →
      d.dead ≠ 0 ∧ RadAlertHIDQuery.deadtime d = some (1 / (d.dead : ℚ))) := by
  constructor
  · intro q hq
    unfold RadAlertLEQuery.validate at hq
    split_ifs at hq with h1 h2 h3
    exact ⟨h2, by simp only [RadAlertLEQuery.deadtime, if_neg h2]⟩
  · intro d hd
    unfold RadAlertHIDQuery.validate at hd
    split_ifs at hd with h1 h2 h3 h4 h5 h6 h7 h8
    exact ⟨h4, by simp only [RadAlertHIDQuery.deadtime, if_neg h4]⟩

/-- Witness for C7 at the S2 BLE query record and a concrete valid HID
query record. -/
theorem claim_C7_witness :
    ((RadAlertLEQuery.fields c6bytes).dead ≠ 0 ∧
      RadAlertLEQuery.deadtime (RadAlertLEQuery.fields c6bytes) =
        some (1 / ((RadAlertLEQuery.fields c6bytes).dead : ℚ))) ∧
    (hidQueryRec.dead ≠ 0 ∧
      RadAlertHIDQuery.deadtime hidQueryRec =
        some (1 / (hidQueryRec.dead : ℚ))) :=
  ⟨claim_C7_deadtime_safe.1 (RadAlertLEQuery.fields c6bytes) (by decide),
   claim_C7_deadtime_safe.2 hidQueryRec (by decide)⟩

/-- C10: every successfully unpacked HID status record has a `cpm`
accessor and an `alarm_state` accessor that fail with a not-available
error, an `is_charging` accessor that returns true, and a
`battery_percent` accessor that returns none. -/
theorem claim_C10_hid_accessors (bs : List Byte) (d : RadAlertHIDStatusData)
    (_h : RadAlertHIDStatus.unpack bs = .ok d) :
    RadAlertHIDStatus.cpm d = .error .notAvailable ∧
    RadAlertHIDStatus.alarm_state d = .error .notAvailable ∧
    RadAlertHIDStatus.is_charging d = true ∧
    RadAlertHIDStatus.battery_percent d = none :=
  ⟨rfl, rfl, rfl, rfl⟩

/-- Witness for C10 at a concrete HID status packet. -/
theorem claim_C10_witness :
    RadAlertHIDStatus.cpm (RadAlertHIDStatus.fields hid15bytes) =
      .error .notAvailable ∧
    RadAlertHIDStatus.alarm_state (RadAlertHIDStatus.fields hid15bytes) =
      .error .notAvailable ∧
    RadAlertHIDStatus.is_charging (RadAlertHIDStatus.fields hid15bytes) = true ∧
    RadAlertHIDStatus.battery_percent (RadAlertHIDStatus.fields hid15bytes) = none :=
  claim_C10_hid_accessors hid15bytes (RadAlertHIDStatus.fields hid15bytes) (by decide)

lemma sync_stop (f : Nat) (s : EngineState) (h : 5 ≤ s.sync_count) :
    synchronizeFuel f s = s := by
  cases f with
  | zero => rfl
  | succ f => simp [synchronizeFuel, RadAlertLE.syncBody, h]

lemma bleDecode_query_of {l a : List Byte} {q : RadAlertLEQueryData}
    (lid : Option Nat) (hl : ¬ l.length < 16) (ht : l.take 16 = a)
    (hs : a.take 4 = querySentinel) (hu : RadAlertLEQuery.unpack a = .ok q) :
    bleDecode l lid = (.ok (some (.query q)), lid) := by
  unfold bleDecode
  rw [if_neg hl, ht, if_pos hs, hu]

lemma bleDecode_status_first {l a : List Byte} {d : RadAlertLEStatusData}
    (hl : ¬ l.length < 16) (ht : l.take 16 = a)
    (hs : ¬ a.take 4 = querySentinel) (hu : RadAlertLEStatus.unpack a = .ok d) :
    bleDecode l none = (.ok (some (.status d)), some d.id) := by
  unfold bleDecode
  rw [if_neg hl, ht, if_neg hs, hu]

lemma bleDecode_status_next {l a : List Byte} {d : RadAlertLEStatusData}
    (lid : Nat) (hl : ¬ l.length < 16) (ht : l.take 16 = a)
    (hs : ¬ a.take 4 = querySentinel) (hu : RadAlertLEStatus.unpack a = .ok d)
    (hseq : (lid + 1) % 256 = d.id) :
    bleDecode l (some lid) = (.ok (some (.status d)), some d.id) := by
  unfold bleDecode
  rw [if_neg hl, ht, if_neg hs, hu]
  simp [hseq]

lemma procStep_packet (cb : RAPacket → List String) (f : Nat)
    (buf : List Byte) (cmd : List String) (lid0 : Option Nat) (sc : Nat)
    (em : List RAPacket) (sn : List String) (p : RAPacket) (lidN : Option Nat)
    (h5 : 5 ≤ sc) (h16 : ¬ buf.length < 16)
    (hd : bleDecode buf lid0 = (.ok (some p), lidN)) :
    processLoopFuel cb (f + 1) ⟨buf, cmd, lid0, sc, em, sn⟩ =
      processLoopFuel cb f
        ⟨buf.drop 16, (cmd ++ ["X"]) ++ cb p, lidN, sc, em ++ [p], sn⟩ := by
  simp only [processLoopFuel]
  rw [if_pos h5, if_neg h16, hd]

lemma procStep_short (cb : RAPacket → List String) (f : Nat)
    (buf : List Byte) (cmd : List String) (lid0 : Option Nat) (sc : Nat)
    (em : List RAPacket) (sn : List String)
    (h5 : 5 ≤ sc) (h16 : buf.length < 16) :
    processLoopFuel cb (f + 1) ⟨buf, cmd, lid0, sc, em, sn⟩ =
      ⟨buf.drop 16, cmd ++ ["X"], lid0, sc, em, sn⟩ := by
  simp only [processLoopFuel]
  rw [if_pos h5, if_pos h16]

lemma syncBody_emitted (s : EngineState) :
    (RadAlertLE.syncBody s).state.emitted = s.emitted := by
  unfold RadAlertLE.syncBody
  repeat' split
  all_goals rfl

/-- C9: the synchronization loop never emits a packet to the callback
(its event history is unchanged for any fuel), and an iteration whose
decode succeeds advances `sync_count` and enqueues an ack while leaving
the receive buffer and the emitted history untouched. -/
theorem claim_C9_sync_no_emit :
    (∀ (f : Nat) (s : EngineState), (synchronizeFuel f s).emitted = s.emitted) ∧
    (∀ (s : EngineState) (p : RAPacket) (lid : Option Nat),
      s.sync_count < 5 → ¬ s.receive_buffer.length < 16 →
      bleDecode s.receive_buffer s.last_id = (.ok (some p), lid) →
      RadAlertLE.syncBody s = .next
        { s with last_id := lid, sync_count := s.sync_count + 1,
                 command_buffer := s.command_buffer ++ ["X"] }) := by
  constructor
  · intro f
    induction f with
    | zero => intro s; rfl
    | succ f ih =>
      intro s
      have hb := syncBody_emitted s
      simp only [synchronizeFuel]
      cases h : RadAlertLE.syncBody s with
      | stop t => rw [h] at hb; exact hb
      | next t => rw [h] at hb; rw [ih t]; exact hb
  · intro s p lid h5 h16 hd
    unfold RadAlertLE.syncBody
    rw [if_neg (by omega), if_neg h16, hd]

/-- Witness for C9 at a concrete SYNCING state whose decode succeeds. -/
theorem claim_C9_witness :
    (synchronizeFuel 3 syncWitnessState).emitted = syncWitnessState.emitted ∧
    RadAlertLE.syncBody syncWitnessState = .next
      { syncWitnessState with last_id := some 1,
                              sync_count := syncWitnessState.sync_count + 1,
                              command_buffer := syncWitnessState.command_buffer ++ ["X"] } :=
  ⟨claim_C9_sync_no_emit.1 3 syncWitnessState,
   claim_C9_sync_no_emit.2 syncWitnessState
     (.status (RadAlertLEStatus.fields (statusBytes 1))) (some 1)
     (by decide) (by decide) (by decide)⟩

/-- C1 evaluated on the code: after the S4 chunks the session has
emitted no record at all and its `sync_count` is back to 0, far from the
claimed ACTIVE state with five emitted records.  (Each successful
synchronization decode leaves the packet in the buffer, so the loop
immediately re-decodes the same bytes and the packet-id continuity check
raises, dropping one byte and resetting `sync_count`.) -/
theorem claim_C1_sync_eval :
    (RadAlertLE.runChunks cbNone initialEngineState c1chunks).emitted = [] ∧
    (RadAlertLE.runChunks cbNone initialEngineState c1chunks).sync_count = 0 := by
  decide

/-- Counterexample to C3 as stated: processing a query + two statuses in
one chunk writes four acks (one per decode loop iteration, including the
final short-buffer iteration), not exactly one. -/
theorem claim_C3_counterexample :
    ((RadAlertLE.on_receive cbNone activeEngineState
        (c6bytes ++ statusBytes 5 ++ statusBytes 6)).sent.count "X\n" = 4) ∧
    (4 : Nat) ≠ 1 := by
  decide

/-- C3 as amended: an ACTIVE session processing one chunk holding a
valid query packet and two valid status packets with consecutive ids
invokes the callback exactly three times, in order Query, Status,
Status, all before any command is written; the writes that follow are
one ack per decode-loop iteration — four in total — with any commands a
callback enqueued (e.g. `?` from `trigger_query`) interleaved right
after that iteration's ack and hence before the final ack. -/
theorem claim_C3_amended (cb : RAPacket → List String) (qb sb1 sb2 : List Byte)
    (q : RadAlertLEQueryData) (d1 d2 : RadAlertLEStatusData)
    (hql : qb.length = 16) (hqs : qb.take 4 = querySentinel)
    (hqu : RadAlertLEQuery.unpack qb = .ok q)
    (h1l : sb1.length = 16) (h1s : ¬ sb1.take 4 = querySentinel)
    (h1u : RadAlertLEStatus.unpack sb1 = .ok d1)
    (h2l : sb2.length = 16) (h2s : ¬ sb2.take 4 = querySentinel)
    (h2u : RadAlertLEStatus.unpack sb2 = .ok d2)
    (hseq : (d1.id + 1) % 256 = d2.id) :
    (RadAlertLE.on_receive cb activeEngineState (qb ++ sb1 ++ sb2)).emitted =
      [.query q, .status d1, .status d2] ∧
    (RadAlertLE.on_receive cb activeEngineState (qb ++ sb1 ++ sb2)).sent =
      (["X"] ++ cb (.query q) ++ (["X"] ++ cb (.status d1) ++
        (["X"] ++ cb (.status d2) ++ ["X"]))).map (fun c => c ++ "\n") := by
  have hL : (qb ++ (sb1 ++ sb2)).length = 48 := by
    simp only [List.length_append, hql, h1l, h2l]
  have hd1 : bleDecode (qb ++ (sb1 ++ sb2)) none = (.ok (some (.query q)), none) :=
    bleDecode_query_of none (by rw [hL]; decide)
      (by rw [← hql, List.take_left]) hqs hqu
  have hd2 : bleDecode (sb1 ++ sb2) none = (.ok (some (.status d1)), some d1.id) :=
    bleDecode_status_first
      (by simp only [List.length_append, h1l, h2l]; decide)
      (by rw [← h1l, List.take_left]) h1s h1u
  have hd3 : bleDecode sb2 (some d1.id) = (.ok (some (.status d2)), some d2.id) :=
    bleDecode_status_next d1.id (by rw [h2l]; decide)
      (by rw [← h2l, List.take_length]) h2s h2u hseq
  have hdr1 : (qb ++ (sb1 ++ sb2)).drop 16 = sb1 ++ sb2 := by
    rw [← hql, List.drop_left]
  have hdr2 : (sb1 ++ sb2).drop 16 = sb2 := by
    rw [← h1l, List.drop_left]
  have hdr3 : sb2.drop 16 = [] := List.drop_eq_nil_of_le (by rw [h2l])
  rw [List.append_assoc]
  simp only [RadAlertLE.on_receive, RadAlertLE.process, RadAlertLE.synchronize,
    activeEngineState, List.nil_append]
  rw [sync_stop _ _ (Nat.le_refl 5)]
  rw [show ((⟨qb ++ (sb1 ++ sb2), [], none, 5, [], []⟩ : EngineState)).receive_buffer
      = qb ++ (sb1 ++ sb2) from rfl]
  rw [hL]
  rw [procStep_packet cb 48 _ _ _ _ _ _ (.query q) none (Nat.le_refl 5)
    (by rw [hL]; decide) hd1]
  rw [hdr1]
  rw [show (48 : Nat) = 47 + 1 from rfl]
  rw [procStep_packet cb 47 _ _ _ _ _ _ (.status d1) (some d1.id) (Nat.le_refl 5)
    (by simp only [List.length_append, h1l, h2l]; decide) hd2]
  rw [hdr2]
  rw [show (47 : Nat) = 46 + 1 from rfl]
  rw [procStep_packet cb 46 _ _ _ _ _ _ (.status d2) (some d2.id) (Nat.le_refl 5)
    (by rw [h2l]; decide) hd3]
  rw [hdr3]
  rw [show (46 : Nat) = 45 + 1 from rfl]
  rw [procStep_short cb 45 _ _ _ _ _ _ (Nat.le_refl 5) (by decide)]
  constructor
  · simp
  · simp [List.append_assoc]

/-- Witness for C3 at concrete packets, with a callback that enqueues a
query command while handling the query record: the trace is ack, query
command, ack, ack, ack. -/
theorem claim_C3_witness :
    (RadAlertLE.on_receive cbQueryOnQuery activeEngineState
        (c6bytes ++ statusBytes 5 ++ statusBytes 6)).emitted =
      [.query (RadAlertLEQuery.fields c6bytes),
       .status (RadAlertLEStatus.fields (statusBytes 5)),
       .status (RadAlertLEStatus.fields (statusBytes 6))] ∧
    (RadAlertLE.on_receive cbQueryOnQuery activeEngineState
        (c6bytes ++ statusBytes 5 ++ statusBytes 6)).sent =
      (["X"] ++ cbQueryOnQuery (.query (RadAlertLEQuery.fields c6bytes)) ++
        (["X"] ++ cbQueryOnQuery (.status (RadAlertLEStatus.fields (statusBytes 5))) ++
          (["X"] ++ cbQueryOnQuery (.status (RadAlertLEStatus.fields (statusBytes 6))) ++
            ["X"]))).map (fun c => c ++ "\n") :=
  claim_C3_amended cbQueryOnQuery c6bytes (statusBytes 5) (statusBytes 6)
    (RadAlertLEQuery.fields c6bytes)
    (RadAlertLEStatus.fields (statusBytes 5))
    (RadAlertLEStatus.fields (statusBytes 6))
    (by decide) (by decide) (by decide)
    (by decide) (by decide) (by decide)
    (by decide) (by decide) (by decide)
    (by decide)
